import Mathlib

/-!
Shallow embedding of `flask_api_system.py`: a minimal authenticated REST API
(user registration, login with bearer tokens, and a per-user operation ledger).

The persistence layer (SQLite) is modelled as explicit state: a `DB` value is
threaded through every operation.  The two external cryptographic libraries are
modelled symbolically:

* `werkzeug.security.generate_password_hash` / `check_password_hash`: a salted
  adaptive hash is abstracted as an injective tagging function; verification
  re-runs the scheme, it never compares plaintexts.
* `PyJWT` (`jwt.encode` / `jwt.decode` with HS256): a signed token is a payload
  together with a MAC, where the MAC is modelled symbolically as the pair
  (secret, payload) — two MACs agree exactly when both the key and the signed
  message agree, which is the standard symbolic model of an unforgeable MAC.
  `jwt.decode` checks the signature first; only a correctly signed token can
  fail with `ExpiredSignatureError`, and the expiry check uses no leeway:
  a token is live exactly while `now < exp`.
-/

namespace FlaskApiSystem

/-! ## Password hashing (werkzeug model) -/

/-- Model of `werkzeug.security.generate_password_hash`.  The salted adaptive hash is
modelled as an injective tag: the output is derived from, and never equal to,
the plaintext. -/
def generate_password_hash (password : String) : String :=
  "pbkdf2:sha256$" ++ password

/-- Model of `werkzeug.security.check_password_hash`: re-runs the hashing scheme on the
candidate and compares digests; the stored plaintext is never consulted
(it is not stored at all). -/
def check_password_hash (stored : String) (candidate : String) : Bool :=
  stored == generate_password_hash candidate

/-! ## JWT (PyJWT model) -/

/-- The claim set embedded in a token by `login`:
`{'username': ..., 'user_id': ..., 'role': ..., 'exp': ...}`.
Times are seconds; `exp` is an absolute instant. -/
structure TokenPayload where
  username : String
  user_id : Nat
  role : String
  exp : Nat
deriving DecidableEq, Repr

/-- Symbolic HS256 MAC over the full claim set: two signatures coincide exactly
when secret and payload both coincide. -/
def sign (secret : String) (payload : TokenPayload) : String × TokenPayload :=
  (secret, payload)

/-- An encoded JWT: payload plus signature, carried inseparably.  Altering the
payload without re-signing leaves the old signature in place. -/
structure Token where
  payload : TokenPayload
  sig : String × TokenPayload
deriving DecidableEq, Repr

/-- Model of `jwt.encode(claims, secret, algorithm='HS256')`. -/
def jwtEncode (secret : String) (payload : TokenPayload) : Token :=
  ⟨payload, sign secret payload⟩

/-- Outcome of `jwt.decode`: the decoded claims, or the exception raised
(`ExpiredSignatureError`, or `InvalidTokenError` for a bad signature). -/
inductive DecodeResult where
  | ok (payload : TokenPayload)
  | expired
  | invalid
deriving DecidableEq, Repr

/-- Model of `jwt.decode(token, secret, algorithms=['HS256'])` at time `now`:
signature checked first; a correctly signed token is expired once `now`
reaches `exp` (no leeway). -/
def jwtDecode (secret : String) (now : Nat) (t : Token) : DecodeResult :=
  if t.sig ≠ sign secret t.payload then .invalid
  else if t.payload.exp ≤ now then .expired
  else .ok t.payload

/-! ## Database state (`DatabaseService`, SQLite tables) -/

/-- A row of `users(id PK AUTOINCREMENT, username UNIQUE NOT NULL,
email UNIQUE NOT NULL, password_hash NOT NULL, role, created_at)`. -/
structure UserRow where
  id : Nat
  username : String
  email : String
  password_hash : String
  role : String
  created_at : Nat
deriving DecidableEq, Repr

/-- A row of `api_operations(id PK AUTOINCREMENT, user_id, operation_type,
data, status, created_at)`. -/
structure OpRow where
  id : Nat
  user_id : Nat
  operation_type : String
  data : String
  status : String
  created_at : Nat
deriving DecidableEq, Repr

/-- The SQLite database: both tables in rowid (insertion) order, plus the
AUTOINCREMENT counters. -/
structure DB where
  users : List UserRow
  ops : List OpRow
  nextUserId : Nat
  nextOpId : Nat
deriving DecidableEq, Repr

/-- The empty freshly-initialised database (`init_database`). -/
def DB.empty : DB := ⟨[], [], 1, 1⟩

/-- The `sqlite3.IntegrityError` causes relevant to the `users` INSERT:
a UNIQUE constraint violation (duplicate username or email) or a NOT NULL
constraint violation (a NULL bound to a NOT NULL column). -/
inductive IntegrityError where
  | uniqueViolation
  | notNullViolation
deriving DecidableEq, Repr

/-- The raw `INSERT INTO users (username, email, password_hash, role)`.
`username`/`email` are `Option String` because a JSON `null` binds SQL NULL
into a NOT NULL column; SQLite enforces NOT NULL and UNIQUE atomically at
insert time (there is no application-level pre-check). -/
def insertUser (db : DB) (username email : Option String)
    (password_hash role : String) (now : Nat) : Except IntegrityError (Nat × DB) :=
  match username, email with
  | some u, some e =>
    if db.users.any (fun r => r.username == u) then .error .uniqueViolation
    else if db.users.any (fun r => r.email == e) then .error .uniqueViolation
    else
      let id := db.nextUserId
      .ok (id, { db with
        users := db.users ++ [⟨id, u, e, password_hash, role, now⟩],
        nextUserId := id + 1 })
  | _, _ => .error .notNullViolation

/-- Model of `DatabaseService.create_user`: hashes the password, attempts the INSERT,
and turns any `sqlite3.IntegrityError` — whatever its cause — into `none`
(the caller's conflict signal); on success commits and returns the fresh id. -/
def create_user (db : DB) (username email : Option String)
    (password role : String) (now : Nat) : Option Nat × DB :=
  let password_hash := generate_password_hash password
  match insertUser db username email password_hash role now with
  | .ok (id, db') => (some id, db')
  | .error _ => (none, db)

/-- Model of `DatabaseService.get_user_by_username`: exact-match lookup, first row. -/
def get_user_by_username (db : DB) (username : String) : Option UserRow :=
  db.users.find? (fun r => r.username == username)

/-- Model of `DatabaseService.create_operation`: INSERT with status defaulting to
`'pending'`; `data` arrives already serialised (`json.dumps`). -/
def create_operation (db : DB) (user_id : Nat) (operation_type : String)
    (data : String) (now : Nat) : Nat × DB :=
  let id := db.nextOpId
  (id, { db with
    ops := db.ops ++ [⟨id, user_id, operation_type, data, "pending", now⟩],
    nextOpId := id + 1 })

/-- Stable insertion into a list kept in `created_at`-descending order: the new
element goes before the first row whose timestamp is not larger, so earlier
rows with an equal timestamp stay in front. -/
def insertDesc (op : OpRow) : List OpRow → List OpRow
  | [] => [op]
  | x :: xs =>
    if op.created_at < x.created_at then x :: insertDesc op xs
    else op :: x :: xs

/-- Semantics of `ORDER BY created_at DESC` over rows in rowid order: a stable descending
sort on the single key `created_at` (the query names no secondary key; rows
with equal timestamps keep their scan order). -/
def sortByCreatedDesc : List OpRow → List OpRow
  | [] => []
  | x :: xs => insertDesc x (sortByCreatedDesc xs)

/-- Model of `DatabaseService.get_user_operations`: filter by `user_id`, sort newest
first, then `LIMIT ?`.  SQLite treats a negative LIMIT as "no upper bound",
so a negative `limit` returns every matching row. -/
def get_user_operations (db : DB) (user_id : Nat) (limit : Int := 10) :
    List OpRow :=
  let sorted := sortByCreatedDesc (db.ops.filter (fun op => op.user_id == user_id))
  if limit < 0 then sorted else sorted.take limit.toNat

/-! ## Route layer -/

/-- A JSON field value as bound into a request body: SQL-relevant cases are a
string or an explicit `null` (a key can be present with value `null`, which
still satisfies the `field in data` presence check). -/
inductive JsonVal where
  | null
  | str (s : String)
deriving DecidableEq, Repr

/-- Convert a present JSON value to the value bound into SQL: `null` ↦ NULL. -/
def JsonVal.toSql : JsonVal → Option String
  | .null => none
  | .str s => some s

/-- Body of `POST /api/register`: each field is `none` when the key is absent.
`username`/`email` keep possible JSON `null`s (their columns are NOT NULL);
`password` and `role`, when present, are strings. -/
structure RegisterReq where
  username : Option JsonVal
  email : Option JsonVal
  password : Option String
  role : Option String
deriving DecidableEq, Repr

/-- Responses of `register`, tagged with their HTTP status. -/
inductive RegisterResult where
  | badRequest (message : String)
  | created (user_id : Nat) (message : String)
  | conflict (message : String)
deriving DecidableEq, Repr

/-- HTTP status code of a `register` response. -/
def RegisterResult.status : RegisterResult → Nat
  | .badRequest _ => 400
  | .created _ _ => 201
  | .conflict _ => 409

/-- The `register` route: checks that the three required keys are present (their
values may still be `null`), calls `create_user`, and maps `none` to a 409
conflict response. -/
def register (db : DB) (now : Nat) (req : RegisterReq) : RegisterResult × DB :=
  match req.username, req.email, req.password with
  | some ju, some je, some pw =>
    let role := req.role.getD "user"
    match create_user db ju.toSql je.toSql pw role now with
    | (some id, db') => (.created id "User created successfully", db')
    | (none, db') => (.conflict "Username or email already exists", db')
  | _, _, _ => (.badRequest "Missing required fields", db)

/-- Body of `POST /api/login`: `data.get` yields `none` when a key is absent;
an empty string is falsy in Python exactly like an absent key. -/
structure LoginReq where
  username : Option String
  password : Option String
deriving DecidableEq, Repr

/-- Responses of `login`, tagged with their HTTP status. -/
inductive LoginResult where
  | badRequest (message : String)
  | ok (token : Token) (user : UserRow)
  | unauthorized (message : String)
deriving DecidableEq, Repr

/-- HTTP status code of a `login` response. -/
def LoginResult.status : LoginResult → Nat
  | .badRequest _ => 400
  | .ok _ _ => 200
  | .unauthorized _ => 401

/-- The `login` route: requires truthy username and password, looks the user up,
verifies the password against the stored hash, and on success issues a token
with claims `{username, user_id, role, exp = now + 24h}`.  A missing user and
a wrong password share the single `else` branch. -/
def login (db : DB) (secret : String) (now : Nat) (req : LoginReq) : LoginResult :=
  let uname := req.username.getD ""
  let pw := req.password.getD ""
  if uname == "" || pw == "" then .badRequest "Username and password required"
  else
    match get_user_by_username db uname with
    | some user =>
      if check_password_hash user.password_hash pw then
        .ok (jwtEncode secret ⟨user.username, user.id, user.role, now + 86400⟩) user
      else .unauthorized "Invalid credentials"
    | none => .unauthorized "Invalid credentials"

/-- The part of a raw `Authorization` header after the optional scheme prefix:
either a well-formed encoded JWT, or any other string (on which `jwt.decode`
raises `InvalidTokenError`). -/
inductive HeaderTok where
  | tok (t : Token)
  | garbage (s : String)
deriving DecidableEq, Repr

/-- A present raw `Authorization` header value: whether the string starts with
`"Bearer "`, and what follows that scheme tag (the whole string when the tag
is absent).  The empty raw string is `⟨false, .garbage ""⟩`. -/
structure HeaderVal where
  bearerTagged : Bool
  rest : HeaderTok
deriving DecidableEq, Repr

/-- Whether the raw header string is the empty string (falsy in Python, so
`if not token` treats it like an absent header). -/
def HeaderVal.isEmptyString (h : HeaderVal) : Bool :=
  !h.bearerTagged && h.rest == .garbage ""

/-- Outcome of the `token_required` decorator: a 401 rejection with a message,
or the wrapped handler invoked with the resolved user row. -/
inductive AuthResult where
  | reject (message : String)
  | grant (user : UserRow)
deriving DecidableEq, Repr

/-- The `token_required` decorator: reject when the header is absent or empty; strip the
optional `"Bearer "` prefix; decode the JWT, mapping `ExpiredSignatureError`
and `InvalidTokenError` to their messages; resolve the claimed username and
reject as invalid when no such user exists; otherwise pass the resolved row
to the handler. -/
def token_required (db : DB) (secret : String) (now : Nat)
    (header : Option HeaderVal) : AuthResult :=
  match header with
  | none => .reject "Token is missing"
  | some h =>
    if h.isEmptyString then .reject "Token is missing"
    else
      match h.rest with
      | .garbage _ => .reject "Token is invalid"
      | .tok t =>
        match jwtDecode secret now t with
        | .invalid => .reject "Token is invalid"
        | .expired => .reject "Token has expired"
        | .ok payload =>
          match get_user_by_username db payload.username with
          | none => .reject "Token is invalid"
          | some user => .grant user

/-- Rejection reasons of the specified per-request authenticator. -/
inductive SpecReason where
  | missing
  | expired
  | invalid
deriving DecidableEq, Repr

/-- Result of the specified authenticator: `Rejected(reason)` or admission
with the resolved live user. -/
inductive SpecAuth where
  | rejected (reason : SpecReason)
  | admitted (user : UserRow)
deriving DecidableEq, Repr

/-- Modelled from the spec: `authenticate(rawHeaderValue)` as the per-request
state machine — when no token is present reject with "missing"; otherwise
strip an optional `"Bearer "` prefix and `verify`; reject with "expired" or
"invalid" per the verification outcome; on success resolve the claim's
username in the credential store, rejecting with "invalid" when the user does
not exist, and otherwise admit with the resolved live user record. -/
def authenticateSpec (db : DB) (secret : String) (now : Nat)
    (header : Option HeaderVal) : SpecAuth :=
  match header with
  | none => .rejected .missing
  | some h =>
    if h.isEmptyString then .rejected .missing
    else
      match h.rest with
      | .garbage _ => .rejected .invalid
      | .tok t =>
        match jwtDecode secret now t with
        | .invalid => .rejected .invalid
        | .expired => .rejected .expired
        | .ok payload =>
          match get_user_by_username db payload.username with
          | none => .rejected .invalid
          | some user => .admitted user

/-- How each specified authenticator outcome surfaces at the HTTP layer:
every rejection is a 401 with the reason's message, and admission invokes the
handler with the user. -/
def specToResponse : SpecAuth → AuthResult
  | .rejected .missing => .reject "Token is missing"
  | .rejected .expired => .reject "Token has expired"
  | .rejected .invalid => .reject "Token is invalid"
  | .admitted user => .grant user

/-- Route `GET /api/operations`: `request.args.get('limit', 10, type=int)` yields the
client's integer when one parses, else 10; the value is handed to
`get_user_operations` unmodified.  Returns the rows and `count`. -/
def get_operations (db : DB) (current_user : UserRow) (limitParam : Option Int) :
    List OpRow × Nat :=
  let lim := limitParam.getD 10
  let operations := get_user_operations db current_user.id lim
  (operations, operations.length)

/-! ## Concrete sample data -/

/-- A registered user: `alice`, password `pw12345`. -/
def sampleUser : UserRow :=
  ⟨1, "alice", "alice@x.com", generate_password_hash "pw12345", "user", 0⟩

/-- A database holding exactly `sampleUser`. -/
def sampleDb : DB := ⟨[sampleUser], [], 2, 1⟩

/-- A database where `alice` owns two operations created within the same
second — `CURRENT_TIMESTAMP` has one-second resolution, so equal
`created_at` values arise whenever inserts are quick. -/
def tieDb : DB :=
  ⟨[sampleUser],
   [⟨1, 1, "ping", "d1", "pending", 100⟩, ⟨2, 1, "pong", "d2", "pending", 100⟩],
   2, 3⟩

/-- The database after registering `alice` into an empty store. -/
def regDb : DB :=
  ⟨[⟨1, "alice", "a@x.com", generate_password_hash "p1", "r1", 0⟩], [], 2, 1⟩

/-! ## Helper lemmas -/

theorem generate_password_hash_inj {p q : String}
    (h : generate_password_hash p = generate_password_hash q) : p = q := by
  have hd := congrArg String.data h
  simp only [generate_password_hash, String.data_append] at hd
  exact String.ext (List.append_cancel_left hd)

theorem generate_password_hash_ne_self (p : String) :
    generate_password_hash p ≠ p := by
  intro h
  have hl := congrArg String.length h
  simp only [generate_password_hash, String.length_append] at hl
  have hc : ("pbkdf2:sha256$" : String).length = 14 := rfl
  omega

theorem check_password_hash_iff (p c : String) :
    check_password_hash (generate_password_hash p) c = true ↔ c = p := by
  constructor
  · intro h
    simp only [check_password_hash, beq_iff_eq] at h
    exact (generate_password_hash_inj h).symm
  · intro h
    subst h
    simp [check_password_hash]

theorem mem_insertDesc {a op : OpRow} {l : List OpRow} :
    a ∈ insertDesc op l ↔ a = op ∨ a ∈ l := by
  induction l with
  | nil => simp [insertDesc]
  | cons x xs ih =>
    by_cases h : op.created_at < x.created_at
    · simp only [insertDesc, if_pos h, List.mem_cons, ih]
      tauto
    · simp only [insertDesc, if_neg h, List.mem_cons]

theorem length_insertDesc (op : OpRow) (l : List OpRow) :
    (insertDesc op l).length = l.length + 1 := by
  induction l with
  | nil => rfl
  | cons x xs ih =>
    by_cases h : op.created_at < x.created_at
    · simp [insertDesc, if_pos h, ih]
    · simp [insertDesc, if_neg h]

theorem pairwise_insertDesc (op : OpRow) (l : List OpRow)
    (h : l.Pairwise (fun a b => b.created_at ≤ a.created_at)) :
    (insertDesc op l).Pairwise (fun a b => b.created_at ≤ a.created_at) := by
  induction l with
  | nil => simp [insertDesc]
  | cons x xs ih =>
    rcases List.pairwise_cons.mp h with ⟨hx, hxs⟩
    by_cases hc : op.created_at < x.created_at
    · simp only [insertDesc, if_pos hc]
      refine List.pairwise_cons.mpr ⟨?_, ih hxs⟩
      intro b hb
      rcases mem_insertDesc.mp hb with hb | hb
      · subst hb; exact Nat.le_of_lt hc
      · exact hx b hb
    · simp only [insertDesc, if_neg hc]
      refine List.pairwise_cons.mpr ⟨?_, h⟩
      intro b hb
      rcases List.mem_cons.mp hb with hb | hb
      · subst hb; exact Nat.le_of_not_lt hc
      · exact Nat.le_trans (hx b hb) (Nat.le_of_not_lt hc)

theorem pairwise_sortByCreatedDesc (l : List OpRow) :
    (sortByCreatedDesc l).Pairwise (fun a b => b.created_at ≤ a.created_at) := by
  induction l with
  | nil => simp [sortByCreatedDesc]
  | cons x xs ih => exact pairwise_insertDesc x _ ih

theorem mem_sortByCreatedDesc {a : OpRow} {l : List OpRow} :
    a ∈ sortByCreatedDesc l ↔ a ∈ l := by
  induction l with
  | nil => simp [sortByCreatedDesc]
  | cons x xs ih =>
    simp only [sortByCreatedDesc, mem_insertDesc, List.mem_cons, ih]

theorem length_sortByCreatedDesc (l : List OpRow) :
    (sortByCreatedDesc l).length = l.length := by
  induction l with
  | nil => rfl
  | cons x xs ih => simp [sortByCreatedDesc, length_insertDesc, ih]

theorem jwtDecode_jwtEncode (secret : String) (now : Nat) (p : TokenPayload)
    (h : now < p.exp) : jwtDecode secret now (jwtEncode secret p) = .ok p := by
  simp [jwtDecode, jwtEncode, Nat.not_le.mpr h]

/-! ## Claim theorems -/

/-- C1: `token_required` behaves as the specified per-request state machine:
absent or empty header rejects as missing; otherwise the optional `"Bearer "`
prefix is stripped and the token verified, rejecting as expired or invalid by
the verification outcome; a verified claim whose username has no user in the
store rejects as invalid; only a verified claim with an existing user admits
the request, passing the resolved live user row to the handler. -/
theorem token_required_refines_authenticate_spec
    (db : DB) (secret : String) (now : Nat) (header : Option HeaderVal) :
    token_required db secret now header =
      specToResponse (authenticateSpec db secret now header) := by
  cases header with
  | none => rfl
  | some h =>
    by_cases he : h.isEmptyString = true
    · simp [token_required, authenticateSpec, he, specToResponse]
    · cases hr : h.rest with
      | garbage s =>
        simp [token_required, authenticateSpec, he, hr, specToResponse]
      | tok t =>
        cases hd : jwtDecode secret now t with
        | ok payload =>
          cases hu : get_user_by_username db payload.username with
          | none =>
            simp [token_required, authenticateSpec, he, hr, hd, hu, specToResponse]
          | some user =>
            simp [token_required, authenticateSpec, he, hr, hd, hu, specToResponse]
        | expired =>
          simp [token_required, authenticateSpec, he, hr, hd, specToResponse]
        | invalid =>
          simp [token_required, authenticateSpec, he, hr, hd, specToResponse]

/-- C2: a successful `login` issues exactly the signed encoding of
`{username, user_id, role, exp = now + 24h}` taken from the resolved user
row, and verifying that token immediately with the same secret succeeds and
returns those same claims. -/
theorem login_token_round_trip
    (db : DB) (secret : String) (now : Nat) (req : LoginReq)
    (tok : Token) (user : UserRow)
    (h : login db secret now req = .ok tok user) :
    tok = jwtEncode secret ⟨user.username, user.id, user.role, now + 86400⟩ ∧
    jwtDecode secret now tok =
      .ok ⟨user.username, user.id, user.role, now + 86400⟩ := by
  unfold login at h
  by_cases hb : (req.username.getD "" == "" || req.password.getD "" == "") = true
  · simp [hb] at h
  · simp only [hb, if_false, Bool.false_eq_true] at h
    cases hu : get_user_by_username db (req.username.getD "") with
    | none => simp [hu] at h
    | some u =>
      simp only [hu] at h
      by_cases hc : check_password_hash u.password_hash (req.password.getD "") = true
      · simp only [hc, if_true] at h
        cases h
        exact ⟨rfl, jwtDecode_jwtEncode secret now _ (by show now < now + 86400; omega)⟩
      · simp [hc] at h

/-- C2 witness. -/
theorem login_token_round_trip_witness :
    jwtEncode "s" ⟨"alice", 1, "user", 86400⟩ =
      jwtEncode "s" ⟨sampleUser.username, sampleUser.id, sampleUser.role, 0 + 86400⟩ ∧
    jwtDecode "s" 0 (jwtEncode "s" ⟨"alice", 1, "user", 86400⟩) =
      .ok ⟨sampleUser.username, sampleUser.id, sampleUser.role, 0 + 86400⟩ :=
  login_token_round_trip sampleDb "s" 0 ⟨some "alice", some "pw12345"⟩
    (jwtEncode "s" ⟨"alice", 1, "user", 86400⟩) sampleUser (by decide)

/-- C3: `verify` classifies failures into two never-conflated outcomes —
a signature that does not match the secret-signed payload yields `invalid`
(in particular any token whose payload was altered after signing), while a
matching signature whose expiry instant has been reached yields `expired`,
with no clock-skew leeway; the two outcomes are distinct constructors. -/
theorem jwt_verify_classification (secret : String) (now : Nat) (t : Token) :
    (jwtDecode secret now t = .invalid ↔ t.sig ≠ sign secret t.payload) ∧
    (jwtDecode secret now t = .expired ↔
      t.sig = sign secret t.payload ∧ t.payload.exp ≤ now) ∧
    (∀ p : TokenPayload, t.sig = sign secret p → t.payload ≠ p →
      jwtDecode secret now t = .invalid) ∧
    DecodeResult.expired ≠ DecodeResult.invalid := by
  refine ⟨?_, ?_, ?_, by simp⟩
  · by_cases hs : t.sig = sign secret t.payload
    · by_cases he : t.payload.exp ≤ now <;> simp [jwtDecode, hs, he]
    · simp [jwtDecode, hs]
  · by_cases hs : t.sig = sign secret t.payload
    · by_cases he : t.payload.exp ≤ now <;> simp [jwtDecode, hs, he]
    · simp [jwtDecode, hs]
  · intro p hp hne
    have hs : t.sig ≠ sign secret t.payload := by
      rw [hp]
      intro hq
      exact hne (congrArg Prod.snd hq).symm
    simp [jwtDecode, hs]

/-- C3 witness: a token whose payload was altered after signing is invalid. -/
theorem jwt_verify_classification_witness :
    jwtDecode "s" 0 ⟨⟨"mallory", 2, "admin", 9⟩, sign "s" ⟨"alice", 1, "user", 9⟩⟩ =
      .invalid :=
  (jwt_verify_classification "s" 0
    ⟨⟨"mallory", 2, "admin", 9⟩, sign "s" ⟨"alice", 1, "user", 9⟩⟩).2.2.1
    ⟨"alice", 1, "user", 9⟩ (by decide) (by decide)

theorem create_user_dup_conflict_aux (db : DB) (u e pw rl : String) (now : Nat)
    (hdup : (∃ row ∈ db.users, row.username = u) ∨ (∃ row ∈ db.users, row.email = e)) :
    create_user db (some u) (some e) pw rl now = (none, db) := by
  by_cases hu : (db.users.any fun row => row.username == u) = true
  · simp [create_user, insertUser, hu]
  · have hu' : (db.users.any fun row => row.username == u) = false :=
      Bool.eq_false_iff.mpr hu
    have he : (db.users.any fun row => row.email == e) = true := by
      rcases hdup with h | h
      · exact absurd (by simpa only [List.any_eq_true, beq_iff_eq] using h) hu
      · simp only [List.any_eq_true, beq_iff_eq]
        exact h
    simp [create_user, insertUser, hu', he]

/-- C4: on any store state, a registration whose username or email already
exists gets the distinguishable conflict result: `create_user` returns the
conflict signal `none` (not an exception) with the store unchanged, detected
at the atomic INSERT with no pre-check, and `register` surfaces it as the 409
conflict response; in particular, registering the same username twice into a
store where it was fresh — even with a different email — succeeds once with
the next id, yields the conflict on the second call, and leaves exactly one
row with that username visible. -/
theorem create_user_existing_username_or_email_conflict :
    (∀ (db : DB) (u e p r : String) (now : Nat) (roleOpt : Option String),
      (∃ row ∈ db.users, row.username = u) ∨ (∃ row ∈ db.users, row.email = e) →
      create_user db (some u) (some e) p r now = (none, db) ∧
      register db now ⟨some (.str u), some (.str e), some p, roleOpt⟩ =
        (.conflict "Username or email already exists", db) ∧
      RegisterResult.status (.conflict "Username or email already exists") = 409) ∧
    (∀ (db db1 : DB) (id1 : Option Nat) (now1 now2 : Nat)
      (u e1 e2 p1 p2 r1 r2 : String),
      (∀ row ∈ db.users, row.username ≠ u) →
      (∀ row ∈ db.users, row.email ≠ e1) →
      create_user db (some u) (some e1) p1 r1 now1 = (id1, db1) →
      id1 = some db.nextUserId ∧
      create_user db1 (some u) (some e2) p2 r2 now2 = (none, db1) ∧
      (db1.users.filter (fun row => row.username == u)).length = 1) := by
  constructor
  · intro db u e p r now roleOpt hdup
    refine ⟨create_user_dup_conflict_aux db u e p r now hdup, ?_, rfl⟩
    simp [register, JsonVal.toSql,
      create_user_dup_conflict_aux db u e p (roleOpt.getD "user") now hdup]
  · intro db db1 id1 now1 now2 u e1 e2 p1 p2 r1 r2 hu he h1
    have hau : (db.users.any fun row => row.username == u) = false := by
      simp only [List.any_eq_false, beq_iff_eq]
      exact hu
    have hae : (db.users.any fun row => row.email == e1) = false := by
      simp only [List.any_eq_false, beq_iff_eq]
      exact he
    simp only [create_user, insertUser, hau, hae, Bool.false_eq_true, if_false,
      Prod.mk.injEq] at h1
    obtain ⟨hid, hdb⟩ := h1
    subst hdb
    refine ⟨hid.symm, ?_, ?_⟩
    · exact create_user_dup_conflict_aux _ u e2 p2 r2 now2
        (Or.inl (by
          refine ⟨⟨db.nextUserId, u, e1, generate_password_hash p1, r1, now1⟩, ?_, rfl⟩
          simp))
    · have hnil : db.users.filter (fun row => row.username == u) = [] := by
        simp only [List.filter_eq_nil_iff, beq_iff_eq]
        exact hu
      simp [List.filter_append, hnil]

/-- C4 witness: the duplicate-email disjunct on a populated store (fresh
username `carol`, existing email), and the duplicate-username scenario with a
different email. -/
theorem create_user_existing_username_or_email_conflict_witness :
    (create_user regDb (some "carol") (some "a@x.com") "pw" "user" 7 =
        (none, regDb) ∧
      register regDb 7 ⟨some (.str "carol"), some (.str "a@x.com"), some "pw", none⟩ =
        (.conflict "Username or email already exists", regDb) ∧
      RegisterResult.status (.conflict "Username or email already exists") = 409) ∧
    (some 1 = some DB.empty.nextUserId ∧
      create_user regDb (some "alice") (some "b@x.com") "p2" "r2" 5 = (none, regDb) ∧
      (regDb.users.filter (fun row => row.username == "alice")).length = 1) :=
  ⟨create_user_existing_username_or_email_conflict.1 regDb "carol" "a@x.com"
      "pw" "user" 7 none (by decide),
    create_user_existing_username_or_email_conflict.2 DB.empty regDb (some 1) 0 5
      "alice" "a@x.com" "b@x.com" "p1" "p2" "r1" "r2"
      (by decide) (by decide) (by decide)⟩

/-- C5: for a fresh (username, email) pair, `create_user` succeeds with the
next id and the record round-trips: `get_user_by_username` returns a row with
the registered username, email and role, whose stored hash verifies the
original plaintext but does not equal it. -/
theorem create_user_get_round_trip
    (db : DB) (now : Nat) (u e p r : String)
    (hu : ∀ row ∈ db.users, row.username ≠ u)
    (he : ∀ row ∈ db.users, row.email ≠ e) :
    (create_user db (some u) (some e) p r now).1 = some db.nextUserId ∧
    ∃ row : UserRow,
      get_user_by_username (create_user db (some u) (some e) p r now).2 u =
        some row ∧
      row.username = u ∧ row.email = e ∧ row.role = r ∧
      check_password_hash row.password_hash p = true ∧
      row.password_hash ≠ p := by
  have hau : (db.users.any fun row => row.username == u) = false := by
    simp only [List.any_eq_false, beq_iff_eq]
    exact hu
  have hae : (db.users.any fun row => row.email == e) = false := by
    simp only [List.any_eq_false, beq_iff_eq]
    exact he
  have hnone : db.users.find? (fun row => row.username == u) = none := by
    simp only [List.find?_eq_none, beq_iff_eq]
    exact hu
  refine ⟨by simp [create_user, insertUser, hau, hae], ?_⟩
  refine ⟨⟨db.nextUserId, u, e, generate_password_hash p, r, now⟩, ?_, rfl, rfl, rfl,
    (check_password_hash_iff p p).mpr rfl, generate_password_hash_ne_self p⟩
  simp [create_user, insertUser, hau, hae, get_user_by_username,
    List.find?_append, hnone]

/-- C5 witness. -/
theorem create_user_get_round_trip_witness :
    (create_user DB.empty (some "bob") (some "b@y.com") "hunter2" "user" 3).1 =
      some DB.empty.nextUserId ∧
    ∃ row : UserRow,
      get_user_by_username
        (create_user DB.empty (some "bob") (some "b@y.com") "hunter2" "user" 3).2
        "bob" = some row ∧
      row.username = "bob" ∧ row.email = "b@y.com" ∧ row.role = "user" ∧
      check_password_hash row.password_hash "hunter2" = true ∧
      row.password_hash ≠ "hunter2" :=
  create_user_get_round_trip DB.empty 3 "bob" "b@y.com" "hunter2" "user"
    (by decide) (by decide)

/-- C7: password verification re-runs the hashing scheme against the stored
hash and succeeds exactly on the original plaintext — any other candidate,
in particular one differing in a single character, is refused. -/
theorem verify_password_exact_only (p : String) :
    check_password_hash (generate_password_hash p) p = true ∧
    ∀ c : String, c ≠ p → check_password_hash (generate_password_hash p) c = false := by
  refine ⟨(check_password_hash_iff p p).mpr rfl, ?_⟩
  intro c hc
  exact Bool.eq_false_iff.mpr (fun h => hc ((check_password_hash_iff p c).mp h))

/-- C7 witness: a one-character variation of the password is refused. -/
theorem verify_password_exact_only_witness :
    check_password_hash (generate_password_hash "pw12345") "pw12346" = false :=
  (verify_password_exact_only "pw12345").2 "pw12346" (by decide)

/-- C6 counterexample: `ORDER BY created_at DESC` names no secondary key, so
two operations sharing a timestamp come back in scan (insertion, id-ascending)
order — the listing is not pairwise ordered by (created_at descending, then id
descending), refuting the claimed deterministic newest-first tie-break. -/
theorem get_user_operations_tie_no_desc_id_order :
    (get_user_operations tieDb 1 10).map OpRow.id = [1, 2] ∧
    ¬ (get_user_operations tieDb 1 10).Pairwise
        (fun a b => b.created_at < a.created_at ∨
          (b.created_at = a.created_at ∧ b.id < a.id)) := by
  decide

/-- C6 amended: the listing is ordered by creation timestamp descending (ties
keep their table order, earlier-inserted rows first — there is no secondary
key), its size is bounded by a nonnegative `limit`, it is the `limit`-prefix
of the unlimited listing, and the route applies the default limit 10 when the
client supplies none. -/
theorem get_user_operations_sorted_and_bounded
    (db : DB) (user_id : Nat) (limit : Int) (h : 0 ≤ limit) :
    (get_user_operations db user_id limit).Pairwise
      (fun a b => b.created_at ≤ a.created_at) ∧
    (get_user_operations db user_id limit).length ≤ limit.toNat ∧
    get_user_operations db user_id limit =
      (get_user_operations db user_id (-1)).take limit.toNat ∧
    (∀ cu : UserRow, get_operations db cu none =
      (get_user_operations db cu.id 10, (get_user_operations db cu.id 10).length)) := by
  have hneg : ¬ (limit < 0) := Int.not_lt.mpr h
  refine ⟨?_, ?_, ?_, fun cu => rfl⟩
  · simp only [get_user_operations, if_neg hneg]
    exact (pairwise_sortByCreatedDesc _).sublist (List.take_sublist _ _)
  · simp only [get_user_operations, if_neg hneg]
    exact List.length_take_le _ _
  · simp [get_user_operations, if_neg hneg]

/-- C6 amended witness. -/
theorem get_user_operations_sorted_and_bounded_witness :
    (get_user_operations tieDb 1 2).Pairwise
      (fun a b => b.created_at ≤ a.created_at) ∧
    (get_user_operations tieDb 1 2).length ≤ (2 : Int).toNat ∧
    get_user_operations tieDb 1 2 =
      (get_user_operations tieDb 1 (-1)).take (2 : Int).toNat ∧
    (∀ cu : UserRow, get_operations tieDb cu none =
      (get_user_operations tieDb cu.id 10, (get_user_operations tieDb cu.id 10).length)) :=
  get_user_operations_sorted_and_bounded tieDb 1 2 (by decide)

/-- C8 counterexample: a NOT NULL violation — a JSON `null` username passes
the required-fields presence check and binds SQL NULL — is not a duplicate,
yet `create_user` swallows it like every `sqlite3.IntegrityError` and
`register` answers with the same 409 conflict response; no distinct
StoreError result exists. -/
theorem not_null_violation_reported_as_conflict :
    insertUser DB.empty none (some "e@x.com") (generate_password_hash "pw")
      "user" 0 = .error .notNullViolation ∧
    register DB.empty 0 ⟨some .null, some (.str "e@x.com"), some "pw", none⟩ =
      (.conflict "Username or email already exists", DB.empty) :=
  ⟨rfl, rfl⟩

/-- C8 amended: `create_user` classifies every integrity violation — duplicate
key and NOT NULL alike — as the single conflict signal `none` with the store
unchanged, and returns the fresh id exactly when the INSERT succeeds; no
separate StoreError result is produced at this boundary. -/
theorem create_user_conflates_integrity_errors
    (db : DB) (username email : Option String) (password role : String) (now : Nat) :
    (∀ err : IntegrityError,
      insertUser db username email (generate_password_hash password) role now =
        .error err →
      create_user db username email password role now = (none, db)) ∧
    (∀ (id : Nat) (db' : DB),
      insertUser db username email (generate_password_hash password) role now =
        .ok (id, db') →
      create_user db username email password role now = (some id, db')) := by
  constructor
  · intro err herr
    simp [create_user, herr]
  · intro id db' hok
    simp [create_user, hok]

/-- C8 amended witness: the NOT NULL violation lands in the conflict branch. -/
theorem create_user_conflates_integrity_errors_witness :
    create_user DB.empty none (some "e@x.com") "pw" "user" 0 = (none, DB.empty) :=
  (create_user_conflates_integrity_errors DB.empty none (some "e@x.com")
    "pw" "user" 0).1 .notNullViolation rfl

/-- C9: a negative limit disables the bound — `get_user_operations` returns
every operation of the user (SQLite's negative LIMIT means no upper bound) —
and the route hands any client-supplied integer limit, negative included, to
the store unmodified. -/
theorem negative_limit_returns_all
    (db : DB) (user_id : Nat) (limit : Int) (h : limit < 0) :
    (get_user_operations db user_id limit).length =
      (db.ops.filter (fun op => op.user_id == user_id)).length ∧
    (∀ op : OpRow, op ∈ get_user_operations db user_id limit ↔
      op ∈ db.ops ∧ op.user_id = user_id) ∧
    (∀ (cu : UserRow) (n : Int), get_operations db cu (some n) =
      (get_user_operations db cu.id n, (get_user_operations db cu.id n).length)) := by
  refine ⟨?_, ?_, fun cu n => rfl⟩
  · simp only [get_user_operations, if_pos h]
    exact length_sortByCreatedDesc _
  · intro op
    simp only [get_user_operations, if_pos h, mem_sortByCreatedDesc,
      List.mem_filter, beq_iff_eq]

/-- C9 witness. -/
theorem negative_limit_returns_all_witness :
    (get_user_operations tieDb 1 (-3)).length =
      (tieDb.ops.filter (fun op => op.user_id == 1)).length :=
  (negative_limit_returns_all tieDb 1 (-3) (by decide)).1

/-- C10: a login with a nonexistent username and a login with an existing
username but a wrong password produce the identical observable failure — the
same 401 status and the same "Invalid credentials" message — so the two causes
cannot be told apart from the response. -/
theorem login_failures_indistinguishable
    (db : DB) (secret : String) (now : Nat)
    (u1 p1 u2 p2 : String) (user : UserRow)
    (hu1 : u1 ≠ "") (hp1 : p1 ≠ "") (hu2 : u2 ≠ "") (hp2 : p2 ≠ "")
    (hmiss : get_user_by_username db u1 = none)
    (hfound : get_user_by_username db u2 = some user)
    (hwrong : check_password_hash user.password_hash p2 = false) :
    login db secret now ⟨some u1, some p1⟩ = .unauthorized "Invalid credentials" ∧
    login db secret now ⟨some u2, some p2⟩ = .unauthorized "Invalid credentials" ∧
    login db secret now ⟨some u1, some p1⟩ = login db secret now ⟨some u2, some p2⟩ ∧
    LoginResult.status (login db secret now ⟨some u1, some p1⟩) = 401 := by
  have h1 : login db secret now ⟨some u1, some p1⟩ =
      .unauthorized "Invalid credentials" := by
    simp [login, hu1, hp1, hmiss]
  have h2 : login db secret now ⟨some u2, some p2⟩ =
      .unauthorized "Invalid credentials" := by
    simp [login, hu2, hp2, hfound, hwrong]
  exact ⟨h1, h2, h1.trans h2.symm, by rw [h1]; rfl⟩

/-- C10 witness. -/
theorem login_failures_indistinguishable_witness :
    login sampleDb "s" 0 ⟨some "bob", some "x"⟩ =
      login sampleDb "s" 0 ⟨some "alice", some "wrong"⟩ :=
  (login_failures_indistinguishable sampleDb "s" 0 "bob" "x" "alice" "wrong"
    sampleUser (by decide) (by decide) (by decide) (by decide)
    (by decide) (by decide) (by decide)).2.2.1

end FlaskApiSystem
